import Mathlib

/-
Verification of the ElecTram hybrid-electric aircraft sizing tool.

Shallow embedding of `powertrain.py` and `mission.py` (package `meow`) over
the rationals: Python floats are modelled as `ℚ`, dictionaries as association
lists, and in-place mutation of dataclass fields as functional record update.
Parts of the repository that the mission simulator calls but whose source is
not available (the standard-atmosphere lookup `atmosisa`, the square-root
routine `numpy.sqrt`, and the aircraft-level blown-lift configuration) are
carried as explicit fields of the `Aircraft` record, modelled from the spec.
-/

/-- Component technology specifications (`powertrain.TechnologySpec`).
Python stores floats; we model them as rationals. -/
structure TechnologySpec where
  GT_specific_power_kW_kg : ℚ
  GT_efficiency : ℚ
  GT_BSFC_kg_kWh : ℚ
  EM_specific_power_kW_kg : ℚ
  EM_efficiency : ℚ
  GEN_specific_power_kW_kg : ℚ
  GEN_efficiency : ℚ
  battery_specific_energy_Wh_kg : ℚ
  battery_specific_power_kW_kg : ℚ
  battery_SOC_margin : ℚ
  battery_DOD : ℚ
  prop_efficiency : ℚ
  deriving DecidableEq, Repr

/-- The dictionary returned by every `get_power_split` implementation. -/
structure PowerSplit where
  P_GT_kW : ℚ
  P_EM_kW : ℚ
  fuel_rate_kg_s : ℚ
  battery_power_W : ℚ
  deriving DecidableEq, Repr

/-- The component power ratings and masses that `size_components` writes onto
the powertrain object (`PowertrainBase.__init__` zero-initialises them; each
variant's `size_components` overwrites them). -/
structure ComponentSizing where
  P_GT_kW : ℚ
  P_EM_kW : ℚ
  P_GEN_kW : ℚ
  m_GT_lb : ℚ
  m_EM_lb : ℚ
  m_GEN_lb : ℚ
  deriving DecidableEq, Repr

namespace ConventionalPowertrain

/-- `ConventionalPowertrain.size_components` (`powertrain.py` lines 73-77). -/
def size_components (tech : TechnologySpec) (P_shaft_kW : ℚ) (_Hp : ℚ) : ComponentSizing :=
  { P_GT_kW := P_shaft_kW
    P_EM_kW := 0
    P_GEN_kW := 0
    m_GT_lb := (P_shaft_kW / tech.GT_specific_power_kW_kg) * 2.20462
    m_EM_lb := 0
    m_GEN_lb := 0 }

/-- `ConventionalPowertrain.get_power_split` (`powertrain.py` lines 79-86). -/
def get_power_split (tech : TechnologySpec) (P_required_kW : ℚ) (_Hp : ℚ) : PowerSplit :=
  let fuel_rate_kg_s := (P_required_kW * tech.GT_BSFC_kg_kWh) / 3600
  { P_GT_kW := P_required_kW
    P_EM_kW := 0
    fuel_rate_kg_s := fuel_rate_kg_s
    battery_power_W := 0 }

end ConventionalPowertrain

namespace ParallelHybridPowertrain

/-- `ParallelHybridPowertrain.size_components` (`powertrain.py` lines 96-101). -/
def size_components (tech : TechnologySpec) (P_shaft_kW : ℚ) (Hp : ℚ) : ComponentSizing :=
  let P_EM_kW := P_shaft_kW * Hp
  let P_GT_kW := P_shaft_kW * (1 - Hp)
  { P_GT_kW := P_GT_kW
    P_EM_kW := P_EM_kW
    P_GEN_kW := 0
    m_GT_lb := (P_GT_kW / tech.GT_specific_power_kW_kg) * 2.20462
    m_EM_lb := (P_EM_kW / tech.EM_specific_power_kW_kg) * 2.20462
    m_GEN_lb := 0 }

/-- `ParallelHybridPowertrain.get_power_split` (`powertrain.py` lines 103-113). -/
def get_power_split (tech : TechnologySpec) (P_required_kW : ℚ) (Hp : ℚ) : PowerSplit :=
  let P_GT_kW := P_required_kW * (1 - Hp)
  let P_EM_kW := P_required_kW * Hp
  let fuel_rate_kg_s := (P_GT_kW * tech.GT_BSFC_kg_kWh) / 3600
  let battery_power_W := (P_EM_kW * 1000) / tech.EM_efficiency
  { P_GT_kW := P_GT_kW
    P_EM_kW := P_EM_kW
    fuel_rate_kg_s := fuel_rate_kg_s
    battery_power_W := battery_power_W }

end ParallelHybridPowertrain

namespace SerialHybridPowertrain

/-- `SerialHybridPowertrain.size_components` (`powertrain.py` lines 123-130). -/
def size_components (tech : TechnologySpec) (P_shaft_kW : ℚ) (Hp : ℚ) : ComponentSizing :=
  let P_EM_kW := P_shaft_kW
  let P_electric_kW := P_shaft_kW / tech.EM_efficiency
  let P_GEN_kW := P_electric_kW * (1 - Hp)
  let P_GT_kW := P_GEN_kW / tech.GEN_efficiency
  { P_GT_kW := P_GT_kW
    P_EM_kW := P_EM_kW
    P_GEN_kW := P_GEN_kW
    m_GT_lb := (P_GT_kW / tech.GT_specific_power_kW_kg) * 2.20462
    m_EM_lb := (P_EM_kW / tech.EM_specific_power_kW_kg) * 2.20462
    m_GEN_lb := (P_GEN_kW / tech.GEN_specific_power_kW_kg) * 2.20462 }

/-- `SerialHybridPowertrain.get_power_split` (`powertrain.py` lines 132-145). -/
def get_power_split (tech : TechnologySpec) (P_required_kW : ℚ) (Hp : ℚ) : PowerSplit :=
  let P_EM_kW := P_required_kW
  let P_electric_kW := P_EM_kW / tech.EM_efficiency
  let P_battery_kW := P_electric_kW * Hp
  let P_generator_kW := P_electric_kW * (1 - Hp)
  let P_GT_kW := P_generator_kW / tech.GEN_efficiency
  let fuel_rate_kg_s := (P_GT_kW * tech.GT_BSFC_kg_kWh) / 3600
  let battery_power_W := P_battery_kW * 1000
  { P_GT_kW := P_GT_kW
    P_EM_kW := P_EM_kW
    fuel_rate_kg_s := fuel_rate_kg_s
    battery_power_W := battery_power_W }

end SerialHybridPowertrain

namespace FullyElectricPowertrain

/-- `FullyElectricPowertrain.size_components` (`powertrain.py` lines 152-156). -/
def size_components (tech : TechnologySpec) (P_shaft_kW : ℚ) (_Hp : ℚ) : ComponentSizing :=
  { P_GT_kW := 0
    P_EM_kW := P_shaft_kW
    P_GEN_kW := 0
    m_GT_lb := 0
    m_EM_lb := (P_shaft_kW / tech.EM_specific_power_kW_kg) * 2.20462
    m_GEN_lb := 0 }

/-- `FullyElectricPowertrain.get_power_split` (`powertrain.py` lines 158-165). -/
def get_power_split (tech : TechnologySpec) (P_required_kW : ℚ) (_Hp : ℚ) : PowerSplit :=
  let battery_power_W := (P_required_kW * 1000) / tech.EM_efficiency
  { P_GT_kW := 0
    P_EM_kW := P_required_kW
    fuel_rate_kg_s := 0
    battery_power_W := battery_power_W }

end FullyElectricPowertrain

/-- The powertrain architecture selected for an aircraft (one of the four
concrete subclasses of `PowertrainBase` in `powertrain.py`). -/
inductive Powertrain
  | conventional
  | parallelHybrid
  | serialHybrid
  | fullyElectric
  deriving DecidableEq, Repr

/-- Dynamic dispatch of `get_power_split` over the selected architecture
(models `self.powertrain.get_power_split(...)` calls in `mission.py`). -/
def Powertrain.get_power_split (pt : Powertrain) (tech : TechnologySpec)
    (P_required_kW : ℚ) (Hp : ℚ) : PowerSplit :=
  match pt with
  | .conventional => ConventionalPowertrain.get_power_split tech P_required_kW Hp
  | .parallelHybrid => ParallelHybridPowertrain.get_power_split tech P_required_kW Hp
  | .serialHybrid => SerialHybridPowertrain.get_power_split tech P_required_kW Hp
  | .fullyElectric => FullyElectricPowertrain.get_power_split tech P_required_kW Hp

/-- `mission.MissionSegment`: one leg of the mission, with its definition
fields and its result fields (the latter zero-initialised, mutated in place
by `simulate_mission`; here modelled by record update). -/
structure MissionSegment where
  name : String
  altitude_start_ft : ℚ
  altitude_end_ft : ℚ
  Hp : ℚ := 0
  time_sec : ℚ := 0
  fuel_lb : ℚ := 0
  battery_Wh : ℚ := 0
  distance_nm : ℚ := 0
  deriving DecidableEq, Repr

/-- Aircraft-level state read by the mission simulator (`self` in
`mission.py`).  The class itself (`aircraft.HybridElectricAircraft`) is not
part of the available source, so this record carries exactly the attributes
the mission code reads, plus:
* `atmosisa_rho`: modelled from the spec: the standard-atmosphere lookup
  `atmosisa` is an external collaborator returning (T, p, rho, a) at an
  altitude in metres; only the density component is read by the cruise
  simulation, so only it is carried here.
* `sqrt`: the square-root routine (`numpy.sqrt`); carried as data because an
  exact real square root is not a computable rational.
* `Hp_design`, `dep_enabled`, `blown_span_fraction`,
  `lift_augmentation_factor_max`: modelled from the spec: the design-level
  hybridization ratio bound by `set_powertrain` and the blown-lift
  configuration block `{enabled, blown_span_fraction,
  lift_augmentation_factor_max}` held on the aircraft. -/
structure Aircraft where
  cruise_speed_kts : ℚ
  cruise_alt_ft : ℚ
  range_nm : ℚ
  CD0 : ℚ
  K1 : ℚ
  CLmax_clean : ℚ
  tech : TechnologySpec
  powertrain : Powertrain
  atmosisa_rho : ℚ → ℚ
  sqrt : ℚ → ℚ
  Hp_design : ℚ := 0
  dep_enabled : Bool := false
  blown_span_fraction : ℚ := 0
  lift_augmentation_factor_max : ℚ := 1

/-- `mission.create_mission` (`mission.py` lines 23-37): builds the six-leg
mission, each leg taking its hybridization ratio from the profile dictionary
with default 0.0. The Python dict is modelled as an association list;
`dict.get(k, 0.0)` becomes `(profile.lookup k).getD 0`. -/
def create_mission (ac : Aircraft) (hybridization_profile : List (String × ℚ)) :
    List MissionSegment :=
  [ { name := "takeoff", altitude_start_ft := 0, altitude_end_ft := 35,
      Hp := (hybridization_profile.lookup "takeoff").getD 0 },
    { name := "climb", altitude_start_ft := 35, altitude_end_ft := ac.cruise_alt_ft,
      Hp := (hybridization_profile.lookup "climb").getD 0 },
    { name := "cruise", altitude_start_ft := ac.cruise_alt_ft,
      altitude_end_ft := ac.cruise_alt_ft,
      Hp := (hybridization_profile.lookup "cruise").getD 0 },
    { name := "descent", altitude_start_ft := ac.cruise_alt_ft, altitude_end_ft := 450,
      Hp := (hybridization_profile.lookup "descent").getD 0 },
    { name := "loiter", altitude_start_ft := 450, altitude_end_ft := 450,
      Hp := (hybridization_profile.lookup "loiter").getD 0 },
    { name := "landing", altitude_start_ft := 450, altitude_end_ft := 0,
      Hp := (hybridization_profile.lookup "landing").getD 0 } ]

/-- `mission.simulate_cruise_segment` (`mission.py` lines 40-72). Returns the
`(time_sec, fuel_lb, battery_Wh)` tuple together with the segment as mutated
by the function (it writes `segment.distance_nm`). -/
def simulate_cruise_segment (ac : Aircraft) (segment : MissionSegment)
    (W_lb S_ft2 : ℚ) : (ℚ × ℚ × ℚ) × MissionSegment :=
  let h_m := segment.altitude_start_ft * 0.3048
  let rho_kg_m3 := ac.atmosisa_rho h_m
  let rho_slug_ft3 := rho_kg_m3 / 515.379
  let V_fps := ac.cruise_speed_kts * 1.688
  let CL := W_lb / (0.5 * rho_slug_ft3 * V_fps ^ 2 * S_ft2)
  let CD := ac.CD0 + ac.K1 * CL ^ 2
  let D_lb := 0.5 * rho_slug_ft3 * V_fps ^ 2 * S_ft2 * CD
  let P_shaft_HP := D_lb * V_fps / (550 * ac.tech.prop_efficiency)
  let P_shaft_kW := P_shaft_HP * 0.7457
  let power_split := ac.powertrain.get_power_split ac.tech P_shaft_kW segment.Hp
  let distance_ft := ac.range_nm * 6076.12
  let time_sec := distance_ft / V_fps
  let fuel_lb := power_split.fuel_rate_kg_s * time_sec * 2.20462
  let battery_Wh := (power_split.battery_power_W * time_sec) / 3600
  ((time_sec, fuel_lb, battery_Wh), { segment with distance_nm := ac.range_nm })

/-- `mission.simulate_climb_segment` (`mission.py` lines 74-108). -/
def simulate_climb_segment (ac : Aircraft) (segment : MissionSegment)
    (W_lb S_ft2 : ℚ) : ℚ × ℚ × ℚ :=
  let W_avg := W_lb * 0.99
  let rho_sl : ℚ := 0.002377
  let V_stall_fps := ac.sqrt (2 * W_avg / (rho_sl * S_ft2 * ac.CLmax_clean))
  let V_climb_fps := 1.3 * V_stall_fps
  let gamma : ℚ := 0.05
  let ROC_fps := V_climb_fps * gamma
  let CL_climb := W_avg / (0.5 * rho_sl * V_climb_fps ^ 2 * S_ft2)
  let CD_climb := ac.CD0 + ac.K1 * CL_climb ^ 2
  let T_lb := W_avg * (1 / (CL_climb / CD_climb) + gamma)
  let P_shaft_HP := T_lb * V_climb_fps / (550 * ac.tech.prop_efficiency)
  let P_shaft_kW := P_shaft_HP * 0.7457
  let power_split := ac.powertrain.get_power_split ac.tech P_shaft_kW segment.Hp
  let alt_change_ft := segment.altitude_end_ft - segment.altitude_start_ft
  let time_sec := if ROC_fps > 0 then alt_change_ft / ROC_fps else 600
  let fuel_lb := power_split.fuel_rate_kg_s * time_sec * 2.20462
  let battery_Wh := (power_split.battery_power_W * time_sec) / 3600
  (time_sec, fuel_lb, battery_Wh)

/-- `mission.simulate_descent_segment` (`mission.py` lines 110-115). -/
def simulate_descent_segment (_ac : Aircraft) (_segment : MissionSegment)
    (W_lb _S_ft2 : ℚ) : ℚ × ℚ × ℚ :=
  (480, 0.02 * W_lb, 100)

/-- `mission.simulate_simple_segment` (`mission.py` lines 117-122). -/
def simulate_simple_segment (_ac : Aircraft) (_segment : MissionSegment)
    (W_lb _S_ft2 : ℚ) : ℚ × ℚ × ℚ :=
  (180, 0.01 * W_lb, 200)

/-- The per-segment dispatch inside the `simulate_mission` loop
(`mission.py` lines 133-142): cruise and climb get physics models, descent
its fixed placeholder, and every other name (takeoff, loiter, landing)
falls through to `simulate_simple_segment`.  Returns the result tuple and
the segment as mutated by the segment simulator itself (only the cruise
simulator writes a field). -/
def simulate_step (ac : Aircraft) (segment : MissionSegment) (W_current_lb S_wing_ft2 : ℚ) :
    (ℚ × ℚ × ℚ) × MissionSegment :=
  if segment.name = "cruise" then
    simulate_cruise_segment ac segment W_current_lb S_wing_ft2
  else if segment.name = "climb" then
    (simulate_climb_segment ac segment W_current_lb S_wing_ft2, segment)
  else if segment.name = "descent" then
    (simulate_descent_segment ac segment W_current_lb S_wing_ft2, segment)
  else
    (simulate_simple_segment ac segment W_current_lb S_wing_ft2, segment)

/-- One loop iteration's store-back (`mission.py` lines 147-150): the
returned `(t, f, b)` tuple is written onto the segment's result fields. -/
def store_results (ac : Aircraft) (segment : MissionSegment) (W_current_lb S_wing_ft2 : ℚ) :
    MissionSegment :=
  let r := simulate_step ac segment W_current_lb S_wing_ft2
  { r.2 with time_sec := r.1.1, fuel_lb := r.1.2.1, battery_Wh := r.1.2.2 }

/-- The result dictionary of `simulate_mission`. -/
structure MissionResult where
  total_fuel_lb : ℚ
  total_battery_Wh : ℚ
  total_time_sec : ℚ
  segments : List MissionSegment
  deriving DecidableEq, Repr

/-- The `for segment in segments` loop of `simulate_mission` (`mission.py`
lines 133-155), expressed recursively: simulate the head segment at the
current weight, subtract its fuel burn from the weight, recurse on the tail,
and accumulate the three totals. -/
def simulate_mission_go (ac : Aircraft) (S_wing_ft2 : ℚ) :
    List MissionSegment → ℚ → List MissionSegment × ℚ × ℚ × ℚ
  | [], _ => ([], 0, 0, 0)
  | segment :: rest, W_current_lb =>
    let r := simulate_step ac segment W_current_lb S_wing_ft2
    let f := r.1.2.1
    let seg' := store_results ac segment W_current_lb S_wing_ft2
    let rec' := simulate_mission_go ac S_wing_ft2 rest (W_current_lb - f)
    (seg' :: rec'.1, rec'.2.1 + f, rec'.2.2.1 + r.1.2.2, rec'.2.2.2 + r.1.1)

/-- `mission.simulate_mission` (`mission.py` lines 125-162). -/
def simulate_mission (ac : Aircraft) (segments : List MissionSegment)
    (TOGW_lb S_wing_ft2 : ℚ) : MissionResult :=
  let r := simulate_mission_go ac S_wing_ft2 segments TOGW_lb
  { total_fuel_lb := r.2.1
    total_battery_Wh := r.2.2.1
    total_time_sec := r.2.2.2
    segments := r.1 }

/-- Modelled from the spec: the lift-augmentation function
`augmentation_factor(active, span_fraction, max_factor)` of the aircraft
class, whose source file is not available.  Spec 4.1: if `active` is false
or distributed-electric high-lift is disabled it returns 1.0; else it
returns `1.0 + (max_factor - 1.0) * span_fraction`. -/
def augmentation_factor (dep_enabled : Bool) (active : Bool)
    (span_fraction max_factor : ℚ) : ℚ :=
  if active = false ∨ dep_enabled = false then 1
  else 1 + (max_factor - 1) * span_fraction

/-- Formalisation of claim C7's wording for the climb simulation, for
comparison with the source: identical to `simulate_climb_segment` except
that the stall speed uses the clean maximum lift coefficient multiplied by
the blown-lift augmentation factor when blown lift is active for the
segment ("the augmented or un-augmented CLmax_clean according to whether
blown lift is active"). -/
def simulate_climb_segment_claim (ac : Aircraft) (blown_active : Bool)
    (segment : MissionSegment) (W_lb S_ft2 : ℚ) : ℚ × ℚ × ℚ :=
  let W_avg := W_lb * 0.99
  let rho_sl : ℚ := 0.002377
  let CLmax_eff := ac.CLmax_clean *
    augmentation_factor ac.dep_enabled blown_active ac.blown_span_fraction
      ac.lift_augmentation_factor_max
  let V_stall_fps := ac.sqrt (2 * W_avg / (rho_sl * S_ft2 * CLmax_eff))
  let V_climb_fps := 1.3 * V_stall_fps
  let gamma : ℚ := 0.05
  let ROC_fps := V_climb_fps * gamma
  let CL_climb := W_avg / (0.5 * rho_sl * V_climb_fps ^ 2 * S_ft2)
  let CD_climb := ac.CD0 + ac.K1 * CL_climb ^ 2
  let T_lb := W_avg * (1 / (CL_climb / CD_climb) + gamma)
  let P_shaft_HP := T_lb * V_climb_fps / (550 * ac.tech.prop_efficiency)
  let P_shaft_kW := P_shaft_HP * 0.7457
  let power_split := ac.powertrain.get_power_split ac.tech P_shaft_kW segment.Hp
  let alt_change_ft := segment.altitude_end_ft - segment.altitude_start_ft
  let time_sec := if ROC_fps > 0 then alt_change_ft / ROC_fps else 600
  let fuel_lb := power_split.fuel_rate_kg_s * time_sec * 2.20462
  let battery_Wh := (power_split.battery_power_W * time_sec) / 3600
  (time_sec, fuel_lb, battery_Wh)

/-- A concrete technology specification (realistic constants) used to
instantiate theorems at concrete inputs. -/
def tech1 : TechnologySpec :=
  { GT_specific_power_kW_kg := 4
    GT_efficiency := 0.3
    GT_BSFC_kg_kWh := 0.36
    EM_specific_power_kW_kg := 5
    EM_efficiency := 0.95
    GEN_specific_power_kW_kg := 5
    GEN_efficiency := 0.95
    battery_specific_energy_Wh_kg := 250
    battery_specific_power_kW_kg := 1
    battery_SOC_margin := 0.2
    battery_DOD := 0.8
    prop_efficiency := 0.8 }

/-- Claim C3: for every required power P and Hp in [0,1], the parallel
hybrid's `get_power_split` returns turbine power P*(1-Hp), motor power P*Hp,
fuel rate P*(1-Hp)*BSFC/3600 kg/s, and battery power P*Hp*1000/EM_efficiency
watts; `size_components` assigns the same Hp split to the component power
ratings, masses from each component's specific power converted to pounds by
2.20462, and zero generator mass. -/
theorem parallel_hybrid_split_correct (tech : TechnologySpec) (P Hp : ℚ)
    (_h0 : 0 ≤ Hp) (_h1 : Hp ≤ 1) :
    (ParallelHybridPowertrain.get_power_split tech P Hp).P_GT_kW = P * (1 - Hp) ∧
    (ParallelHybridPowertrain.get_power_split tech P Hp).P_EM_kW = P * Hp ∧
    (ParallelHybridPowertrain.get_power_split tech P Hp).fuel_rate_kg_s
      = P * (1 - Hp) * tech.GT_BSFC_kg_kWh / 3600 ∧
    (ParallelHybridPowertrain.get_power_split tech P Hp).battery_power_W
      = P * Hp * 1000 / tech.EM_efficiency ∧
    ParallelHybridPowertrain.size_components tech P Hp =
      { P_GT_kW := P * (1 - Hp)
        P_EM_kW := P * Hp
        P_GEN_kW := 0
        m_GT_lb := P * (1 - Hp) / tech.GT_specific_power_kW_kg * 2.20462
        m_EM_lb := P * Hp / tech.EM_specific_power_kW_kg * 2.20462
        m_GEN_lb := 0 } :=
  ⟨rfl, rfl, rfl, rfl, rfl⟩

/-- Concrete instance of the parallel-hybrid split theorem. -/
theorem parallel_hybrid_split_correct_witness :
    (ParallelHybridPowertrain.get_power_split tech1 2 (1/2)).P_EM_kW = 2 * (1/2) :=
  (parallel_hybrid_split_correct tech1 2 (1/2) (by norm_num) (by norm_num)).2.1

/-- Claim C4: for every required power P and Hp in [0,1], the serial
hybrid's `get_power_split` routes all shaft power through the motor
(P_EM = P), computes electrical power P/EM_efficiency, splits it by Hp into
battery and generator shares, sets turbine power to the generator share over
GEN_efficiency, fuel rate to turbine power * BSFC/3600, and battery power to
the battery electrical share * 1000 with no generator-efficiency penalty;
`size_components` applies the same chain to the component power ratings. -/
theorem serial_hybrid_split_correct (tech : TechnologySpec) (P Hp : ℚ)
    (_h0 : 0 ≤ Hp) (_h1 : Hp ≤ 1) :
    (SerialHybridPowertrain.get_power_split tech P Hp).P_EM_kW = P ∧
    (SerialHybridPowertrain.get_power_split tech P Hp).P_GT_kW
      = P / tech.EM_efficiency * (1 - Hp) / tech.GEN_efficiency ∧
    (SerialHybridPowertrain.get_power_split tech P Hp).fuel_rate_kg_s
      = P / tech.EM_efficiency * (1 - Hp) / tech.GEN_efficiency
          * tech.GT_BSFC_kg_kWh / 3600 ∧
    (SerialHybridPowertrain.get_power_split tech P Hp).battery_power_W
      = P / tech.EM_efficiency * Hp * 1000 ∧
    (SerialHybridPowertrain.size_components tech P Hp).P_EM_kW = P ∧
    (SerialHybridPowertrain.size_components tech P Hp).P_GEN_kW
      = P / tech.EM_efficiency * (1 - Hp) ∧
    (SerialHybridPowertrain.size_components tech P Hp).P_GT_kW
      = P / tech.EM_efficiency * (1 - Hp) / tech.GEN_efficiency :=
  ⟨rfl, rfl, rfl, rfl, rfl, rfl, rfl⟩

/-- Concrete instance of the serial-hybrid split theorem. -/
theorem serial_hybrid_split_correct_witness :
    (SerialHybridPowertrain.get_power_split tech1 3 (1/4)).battery_power_W
      = 3 / tech1.EM_efficiency * (1/4) * 1000 :=
  (serial_hybrid_split_correct tech1 3 (1/4) (by norm_num) (by norm_num)).2.2.2.1

/-- Claim C1 counterexample: contrary to the claim, no
`InvalidHybridizationRatio` or `NonPositivePower` failure occurs anywhere in
`powertrain.py` — at Hp = 1.0000001 (outside [0,1]) and at a negative
required power, `get_power_split` and `size_components` return ordinary
values computed from their formulas instead of failing. -/
theorem powertrain_no_validation_cex :
    ParallelHybridPowertrain.get_power_split tech1 5 1.0000001 =
      { P_GT_kW := 5 * (1 - 1.0000001)
        P_EM_kW := 5 * 1.0000001
        fuel_rate_kg_s := 5 * (1 - 1.0000001) * 0.36 / 3600
        battery_power_W := 5 * 1.0000001 * 1000 / 0.95 } ∧
    ParallelHybridPowertrain.size_components tech1 5 1.0000001 =
      { P_GT_kW := 5 * (1 - 1.0000001)
        P_EM_kW := 5 * 1.0000001
        P_GEN_kW := 0
        m_GT_lb := 5 * (1 - 1.0000001) / 4 * 2.20462
        m_EM_lb := 5 * 1.0000001 / 5 * 2.20462
        m_GEN_lb := 0 } ∧
    SerialHybridPowertrain.get_power_split tech1 (-3) 0.5 =
      { P_GT_kW := -3 / 0.95 * (1 - 0.5) / 0.95
        P_EM_kW := -3
        fuel_rate_kg_s := -3 / 0.95 * (1 - 0.5) / 0.95 * 0.36 / 3600
        battery_power_W := -3 / 0.95 * 0.5 * 1000 } :=
  ⟨rfl, rfl, rfl⟩

/-- Claim C1 (amended): the powertrain functions perform no validation at
all — every Hp (also outside [0,1]) and every power (also ≤ 0) is accepted
and produces the formula outputs for all four variants; a required power of
exactly 0 makes `get_power_split` return an all-zero split in each variant. -/
theorem powertrain_no_validation (tech : TechnologySpec) (P Hp : ℚ) :
    (P = 0 →
      ConventionalPowertrain.get_power_split tech P Hp = ⟨0, 0, 0, 0⟩ ∧
      ParallelHybridPowertrain.get_power_split tech P Hp = ⟨0, 0, 0, 0⟩ ∧
      SerialHybridPowertrain.get_power_split tech P Hp = ⟨0, 0, 0, 0⟩ ∧
      FullyElectricPowertrain.get_power_split tech P Hp = ⟨0, 0, 0, 0⟩) ∧
    (ParallelHybridPowertrain.get_power_split tech P Hp).P_GT_kW
      + (ParallelHybridPowertrain.get_power_split tech P Hp).P_EM_kW = P ∧
    (SerialHybridPowertrain.get_power_split tech P Hp).P_EM_kW = P ∧
    (ConventionalPowertrain.get_power_split tech P Hp).P_GT_kW = P ∧
    (FullyElectricPowertrain.get_power_split tech P Hp).P_EM_kW = P := by
  refine ⟨?_, ?_, rfl, rfl, rfl⟩
  · rintro rfl
    refine ⟨?_, ?_, ?_, ?_⟩ <;>
      simp [ConventionalPowertrain.get_power_split,
        ParallelHybridPowertrain.get_power_split,
        SerialHybridPowertrain.get_power_split,
        FullyElectricPowertrain.get_power_split]
  · show P * (1 - Hp) + P * Hp = P
    ring

/-- Concrete instance of the no-validation theorem (zero power, Hp out of
range). -/
theorem powertrain_no_validation_witness :
    ParallelHybridPowertrain.get_power_split tech1 0 5 = ⟨0, 0, 0, 0⟩ :=
  ((powertrain_no_validation tech1 0 5).1 rfl).2.1

/-- Claim C2 counterexample: at Hp = 0 the serial hybrid's fuel rate does
NOT equal the conventional fuel rate for the same required power — the
serial path divides by both motor and generator efficiency, so with
efficiencies below 1 it burns strictly more fuel. -/
theorem serial_hp0_fuel_mismatch_cex :
    (SerialHybridPowertrain.get_power_split tech1 1 0).fuel_rate_kg_s ≠
      (ConventionalPowertrain.get_power_split tech1 1 0).fuel_rate_kg_s := by
  simp only [SerialHybridPowertrain.get_power_split,
    ConventionalPowertrain.get_power_split, tech1]
  norm_num

/-- Claim C2 (amended): at Hp = 0 both hybrids draw zero battery power; the
parallel hybrid's fuel rate equals the conventional one for the same
required power, while the serial hybrid's fuel rate equals the conventional
one divided by EM_efficiency * GEN_efficiency (equal to it only when that
product is 1); at Hp = 1 both hybrids' fuel rate is exactly zero. -/
theorem hybrid_degenerate_split (tech : TechnologySpec) (P : ℚ)
    (hEM : tech.EM_efficiency ≠ 0) (hGEN : tech.GEN_efficiency ≠ 0) :
    (ParallelHybridPowertrain.get_power_split tech P 0).fuel_rate_kg_s
      = (ConventionalPowertrain.get_power_split tech P 0).fuel_rate_kg_s ∧
    (ParallelHybridPowertrain.get_power_split tech P 0).battery_power_W = 0 ∧
    (SerialHybridPowertrain.get_power_split tech P 0).battery_power_W = 0 ∧
    (SerialHybridPowertrain.get_power_split tech P 0).fuel_rate_kg_s
        * (tech.EM_efficiency * tech.GEN_efficiency)
      = (ConventionalPowertrain.get_power_split tech P 0).fuel_rate_kg_s ∧
    (ParallelHybridPowertrain.get_power_split tech P 1).fuel_rate_kg_s = 0 ∧
    (SerialHybridPowertrain.get_power_split tech P 1).fuel_rate_kg_s = 0 := by
  refine ⟨?_, ?_, ?_, ?_, ?_, ?_⟩
  · show P * (1 - 0) * tech.GT_BSFC_kg_kWh / 3600
      = P * tech.GT_BSFC_kg_kWh / 3600
    ring
  · show P * 0 * 1000 / tech.EM_efficiency = 0
    simp
  · show P / tech.EM_efficiency * 0 * 1000 = 0
    simp
  · show P / tech.EM_efficiency * (1 - 0) / tech.GEN_efficiency
        * tech.GT_BSFC_kg_kWh / 3600
        * (tech.EM_efficiency * tech.GEN_efficiency)
      = P * tech.GT_BSFC_kg_kWh / 3600
    field_simp
    ring
  · show P * (1 - 1) * tech.GT_BSFC_kg_kWh / 3600 = 0
    simp
  · show P / tech.EM_efficiency * (1 - 1) / tech.GEN_efficiency
        * tech.GT_BSFC_kg_kWh / 3600 = 0
    simp

/-- Concrete instance of the degenerate-split theorem. -/
theorem hybrid_degenerate_split_witness :
    (SerialHybridPowertrain.get_power_split tech1 7 0).fuel_rate_kg_s
        * (tech1.EM_efficiency * tech1.GEN_efficiency)
      = (ConventionalPowertrain.get_power_split tech1 7 0).fuel_rate_kg_s :=
  (hybrid_degenerate_split tech1 7 (by norm_num [tech1]) (by norm_num [tech1])).2.2.2.1

/-- A concrete aircraft used to instantiate theorems at concrete inputs. -/
def ac1 : Aircraft :=
  { cruise_speed_kts := 125
    cruise_alt_ft := 8000
    range_nm := 350
    CD0 := 0.025
    K1 := 0.045
    CLmax_clean := 2
    tech := tech1
    powertrain := .parallelHybrid
    atmosisa_rho := fun _ => 0.963
    sqrt := fun _ => 1 }

/-- A concrete takeoff segment. -/
def segT : MissionSegment :=
  { name := "takeoff", altitude_start_ft := 0, altitude_end_ft := 35 }

/-- A concrete descent segment. -/
def segD : MissionSegment :=
  { name := "descent", altitude_start_ft := 8000, altitude_end_ft := 450 }

/-- A concrete climb segment climbing 6500 ft. -/
def segClimb : MissionSegment :=
  { name := "climb", altitude_start_ft := 35, altitude_end_ft := 6535 }

/-- Claim C9: the lift-augmentation factor is 1.0 whenever blown lift is
inactive or distributed-electric high-lift is disabled (for every span
fraction in [0,1] and max factor >= 1); otherwise it is
1 + (max_factor - 1) * span_fraction, giving 1.0 at span 0, max_factor at
span 1, and strictly increasing in span fraction when max_factor > 1. -/
theorem augmentation_factor_correct (dep active : Bool) (s f : ℚ)
    (_hs0 : 0 ≤ s) (_hs1 : s ≤ 1) (_hf : 1 ≤ f) :
    (active = false ∨ dep = false → augmentation_factor dep active s f = 1) ∧
    (active = true → dep = true →
      augmentation_factor dep active s f = 1 + (f - 1) * s) ∧
    augmentation_factor true true 0 f = 1 ∧
    augmentation_factor true true 1 f = f ∧
    (1 < f → ∀ s', s < s' →
      augmentation_factor true true s f < augmentation_factor true true s' f) := by
  refine ⟨?_, ?_, ?_, ?_, ?_⟩
  · intro h
    unfold augmentation_factor
    exact if_pos h
  · rintro rfl rfl
    simp [augmentation_factor]
  · simp [augmentation_factor]
  · have h : augmentation_factor true true 1 f = 1 + (f - 1) * 1 := by
      simp [augmentation_factor]
    rw [h]; ring
  · intro hf' s' hss'
    have h1 : augmentation_factor true true s f = 1 + (f - 1) * s := by
      simp [augmentation_factor]
    have h2 : augmentation_factor true true s' f = 1 + (f - 1) * s' := by
      simp [augmentation_factor]
    rw [h1, h2]
    nlinarith [mul_pos (by linarith : (0:ℚ) < f - 1) (by linarith : (0:ℚ) < s' - s)]

/-- Concrete instance of the lift-augmentation theorem. -/
theorem augmentation_factor_correct_witness :
    augmentation_factor false true (1/2) 2 = 1 ∧
    augmentation_factor true true (1/2) 2 < augmentation_factor true true (3/4) 2 :=
  ⟨(augmentation_factor_correct false true (1/2) 2 (by norm_num) (by norm_num)
      (by norm_num)).1 (Or.inr rfl),
   (augmentation_factor_correct true true (1/2) 2 (by norm_num) (by norm_num)
      (by norm_num)).2.2.2.2 (by norm_num) (3/4) (by norm_num)⟩

/-- Claim C10: `create_mission` builds the six named segments in order; any
segment name absent from the hybridization-profile dictionary gets Hp = 0.0
(the `dict.get(name, 0.0)` default); an empty profile yields Hp = 0 on every
segment, regardless of the design-level hybridization ratio. -/
theorem create_mission_profile_defaults (ac : Aircraft)
    (profile : List (String × ℚ)) :
    ((create_mission ac profile).map MissionSegment.name)
      = ["takeoff", "climb", "cruise", "descent", "loiter", "landing"] ∧
    (∀ seg ∈ create_mission ac profile,
      profile.lookup seg.name = none → seg.Hp = 0) ∧
    (∀ seg ∈ create_mission ac [], seg.Hp = 0) ∧
    (∀ q : ℚ,
      ((create_mission { ac with Hp_design := q } profile).map MissionSegment.Hp)
        = (create_mission ac profile).map MissionSegment.Hp) := by
  refine ⟨rfl, ?_, ?_, fun q => rfl⟩
  · intro seg hseg hnone
    have h0 : seg.Hp = (profile.lookup seg.name).getD 0 := by
      fin_cases hseg <;> rfl
    rw [h0, hnone]
    rfl
  · intro seg hseg
    fin_cases hseg <;> rfl

/-- Concrete instance of the `create_mission` defaulting theorem. -/
theorem create_mission_profile_defaults_witness :
    ((create_mission { ac1 with Hp_design := 42 } []).map MissionSegment.Hp)
        = (create_mission ac1 []).map MissionSegment.Hp ∧
    ({ name := "takeoff", altitude_start_ft := 0, altitude_end_ft := 35,
       Hp := 0 } : MissionSegment).Hp = 0 :=
  ⟨(create_mission_profile_defaults ac1 []).2.2.2 42,
   (create_mission_profile_defaults ac1 []).2.2.1 _ (by simp [create_mission])⟩

/-- Claim C8: descent segments take a fixed 480 seconds, burn 2% of current
weight, and draw a fixed nominal 100 Wh; takeoff, loiter, and landing fall
through to the simple segment: 180 seconds, 1% of current weight, 200 Wh —
all independent of altitude, powertrain architecture, and segment Hp. -/
theorem fixed_segments_correct (ac ac' : Aircraft) (seg seg' : MissionSegment)
    (W S S' : ℚ) :
    simulate_descent_segment ac seg W S = (480, 0.02 * W, 100) ∧
    simulate_simple_segment ac seg W S = (180, 0.01 * W, 200) ∧
    simulate_descent_segment ac seg W S = simulate_descent_segment ac' seg' W S' ∧
    simulate_simple_segment ac seg W S = simulate_simple_segment ac' seg' W S' ∧
    (seg.name = "descent" →
      simulate_step ac seg W S = ((480, 0.02 * W, 100), seg)) ∧
    (seg.name = "takeoff" ∨ seg.name = "loiter" ∨ seg.name = "landing" →
      simulate_step ac seg W S = ((180, 0.01 * W, 200), seg)) := by
  refine ⟨rfl, rfl, rfl, rfl, ?_, ?_⟩
  · intro h
    simp [simulate_step, h, simulate_descent_segment]
  · rintro (h | h | h) <;> simp [simulate_step, h, simulate_simple_segment]

/-- Concrete instance of the fixed-segments theorem. -/
theorem fixed_segments_correct_witness :
    simulate_step ac1 segT 100 10 = ((180, 0.01 * 100, 200), segT) :=
  (fixed_segments_correct ac1 ac1 segT segT 100 10 10).2.2.2.2.2 (Or.inl rfl)

/-- Claim C6: the cruise segment computes the lift coefficient from current
weight, density from the atmosphere lookup at the segment altitude, and
cruise speed; the drag coefficient from the parabolic polar CD0 + K1*CL^2;
required shaft power from drag * speed over propeller efficiency (HP to kW
by 0.7457); segment time as mission range over cruise speed; and fuel and
battery consumption as the powertrain split at the segment's Hp times that
time (fuel to pounds by 2.20462, battery power * time / 3600 Wh). -/
theorem simulate_cruise_correct (ac : Aircraft) (seg : MissionSegment) (W S : ℚ) :
    simulate_cruise_segment ac seg W S =
      (let rho := ac.atmosisa_rho (seg.altitude_start_ft * 0.3048) / 515.379
       let V := ac.cruise_speed_kts * 1.688
       let CL := W / (0.5 * rho * V ^ 2 * S)
       let CD := ac.CD0 + ac.K1 * CL ^ 2
       let P_kW := 0.5 * rho * V ^ 2 * S * CD * V / (550 * ac.tech.prop_efficiency)
         * 0.7457
       let split := ac.powertrain.get_power_split ac.tech P_kW seg.Hp
       let t := ac.range_nm * 6076.12 / V
       ((t, split.fuel_rate_kg_s * t * 2.20462, split.battery_power_W * t / 3600),
        { seg with distance_nm := ac.range_nm })) :=
  rfl

/-- A rational stand-in for the square-root routine that is exact at the two
arguments the climb counterexample evaluates it on (1000^2 and 500^2). -/
def sqrt_table : ℚ → ℚ := fun q =>
  if q = 1000000 then 1000 else if q = 250000 then 500 else 0

/-- A concrete aircraft with blown lift enabled and fully blown span
(augmentation factor 1 + (4-1)*1 = 4), whose square-root routine is exact at
the points the climb simulation evaluates it on. -/
def acClimb : Aircraft :=
  { cruise_speed_kts := 125
    cruise_alt_ft := 6535
    range_nm := 350
    CD0 := 0.025
    K1 := 0.045
    CLmax_clean := 2
    tech := tech1
    powertrain := .conventional
    atmosisa_rho := fun _ => 1.225
    sqrt := sqrt_table
    dep_enabled := true
    blown_span_fraction := 1
    lift_augmentation_factor_max := 4 }

/-- Claim C7 counterexample: `simulate_climb_segment` never consults the
blown-lift state — it always uses the un-augmented `CLmax_clean`.  At weight
237700/99 lb and wing area 1 ft² the stall-speed argument is exactly
1000^2, so the source computes climb time 6500/(1.3*1000*0.05) = 100 s,
while the claim's augmented-CLmax formula (blown lift active, augmentation
factor 4) would use sqrt(250000) = 500 and give 200 s.  The last two
conjuncts record that the square-root table is exact at both points. -/
theorem climb_ignores_blown_lift_cex :
    (simulate_climb_segment acClimb segClimb (237700/99) 1).1 = 100 ∧
    (simulate_climb_segment_claim acClimb true segClimb (237700/99) 1).1 = 200 ∧
    (simulate_climb_segment_claim acClimb true segClimb (237700/99) 1).1
      ≠ (simulate_climb_segment acClimb segClimb (237700/99) 1).1 ∧
    sqrt_table 1000000 ^ 2 = 1000000 ∧
    sqrt_table 250000 ^ 2 = 250000 := by
  have h1 : (simulate_climb_segment acClimb segClimb (237700/99) 1).1 = 100 := by
    simp only [simulate_climb_segment, acClimb, segClimb, tech1, sqrt_table]
    norm_num
  have h2 : (simulate_climb_segment_claim acClimb true segClimb (237700/99) 1).1
      = 200 := by
    simp only [simulate_climb_segment_claim, augmentation_factor, acClimb, segClimb,
      tech1, sqrt_table]
    norm_num
  refine ⟨h1, h2, ?_, by norm_num [sqrt_table], by norm_num [sqrt_table]⟩
  rw [h1, h2]
  norm_num

/-- Claim C7 (amended): the climb simulation uses average weight 0.99*W,
climb speed 1.3 times the stall speed computed from sea-level density, the
average weight, the wing area and the UN-augmented `CLmax_clean` (the source
performs no per-segment blown-lift selection), rate of climb equal to the
fixed 5% gradient times climb speed, and time equal to the altitude change
over the rate of climb, with 600 s whenever the rate of climb is
non-positive; when blown lift is inactive or disabled the claim's
augmented-CLmax formula coincides with the source. -/
theorem simulate_climb_correct (ac : Aircraft) (seg : MissionSegment) (W S : ℚ) :
    ((simulate_climb_segment ac seg W S).1 =
      (let V_climb := 1.3 * ac.sqrt (2 * (W * 0.99) / (0.002377 * S * ac.CLmax_clean))
       let ROC := V_climb * 0.05
       if ROC > 0 then (seg.altitude_end_ft - seg.altitude_start_ft) / ROC
       else 600)) ∧
    (∀ active : Bool, ac.dep_enabled = false ∨ active = false →
      simulate_climb_segment_claim ac active seg W S
        = simulate_climb_segment ac seg W S) := by
  refine ⟨rfl, ?_⟩
  intro active h
  have haug : augmentation_factor ac.dep_enabled active ac.blown_span_fraction
      ac.lift_augmentation_factor_max = 1 := by
    rcases h with h | h <;> simp [augmentation_factor, h]
  simp only [simulate_climb_segment_claim, simulate_climb_segment, haug, mul_one]

/-- Concrete instance of the climb theorem. -/
theorem simulate_climb_correct_witness :
    simulate_climb_segment_claim ac1 false segClimb 100 10
      = simulate_climb_segment ac1 segClimb 100 10 :=
  (simulate_climb_correct ac1 segClimb 100 10).2 false (Or.inr rfl)

/-- The result fields written back onto a segment are the components of the
segment simulator's tuple. -/
theorem store_results_fields (ac : Aircraft) (seg : MissionSegment) (W S : ℚ) :
    (store_results ac seg W S).fuel_lb = (simulate_step ac seg W S).1.2.1 ∧
    (store_results ac seg W S).battery_Wh = (simulate_step ac seg W S).1.2.2 ∧
    (store_results ac seg W S).time_sec = (simulate_step ac seg W S).1.1 :=
  ⟨rfl, rfl, rfl⟩

/-- Unfolding of the mission loop on a nonempty segment list. -/
theorem simulate_mission_go_cons (ac : Aircraft) (S : ℚ) (seg : MissionSegment)
    (rest : List MissionSegment) (W : ℚ) :
    simulate_mission_go ac S (seg :: rest) W =
      (store_results ac seg W S ::
        (simulate_mission_go ac S rest (W - (simulate_step ac seg W S).1.2.1)).1,
       (simulate_mission_go ac S rest (W - (simulate_step ac seg W S).1.2.1)).2.1
         + (simulate_step ac seg W S).1.2.1,
       (simulate_mission_go ac S rest (W - (simulate_step ac seg W S).1.2.1)).2.2.1
         + (simulate_step ac seg W S).1.2.2,
       (simulate_mission_go ac S rest (W - (simulate_step ac seg W S).1.2.1)).2.2.2
         + (simulate_step ac seg W S).1.1) :=
  rfl

/-- Prefix sums of a list of non-negative rationals are monotone in the
prefix length. -/
theorem take_sum_le_take_sum (l : List ℚ) (h : ∀ x ∈ l, 0 ≤ x)
    {i j : ℕ} (hij : i ≤ j) : (l.take i).sum ≤ (l.take j).sum := by
  have h1 : (l.take j).take i = l.take i := by
    rw [List.take_take, Nat.min_eq_left hij]
  have h2 : (l.take i).sum + ((l.take j).drop i).sum = (l.take j).sum := by
    rw [← h1, ← List.sum_append, List.take_append_drop]
  have h3 : 0 ≤ ((l.take j).drop i).sum :=
    List.sum_nonneg fun x hx =>
      h x (List.take_subset _ _ (List.drop_subset _ _ hx))
  linarith

/-- Invariants of the mission loop: the output segment list has one entry
per input segment; each accumulated total is the sum of the corresponding
stored per-segment results; and the i-th output segment is the i-th input
segment simulated at the starting weight minus the fuel stored on the
earlier output segments. -/
theorem simulate_mission_go_spec (ac : Aircraft) (S : ℚ)
    (segs : List MissionSegment) : ∀ (W : ℚ),
    (simulate_mission_go ac S segs W).1.length = segs.length ∧
    (simulate_mission_go ac S segs W).2.1
      = ((simulate_mission_go ac S segs W).1.map MissionSegment.fuel_lb).sum ∧
    (simulate_mission_go ac S segs W).2.2.1
      = ((simulate_mission_go ac S segs W).1.map MissionSegment.battery_Wh).sum ∧
    (simulate_mission_go ac S segs W).2.2.2
      = ((simulate_mission_go ac S segs W).1.map MissionSegment.time_sec).sum ∧
    ∀ i (hi : i < segs.length)
        (hi' : i < (simulate_mission_go ac S segs W).1.length),
      (simulate_mission_go ac S segs W).1.get ⟨i, hi'⟩
        = store_results ac (segs.get ⟨i, hi⟩)
            (W - (((simulate_mission_go ac S segs W).1.take i).map
              MissionSegment.fuel_lb).sum) S := by
  induction segs with
  | nil =>
    intro W
    refine ⟨rfl, rfl, rfl, rfl, ?_⟩
    intro i hi
    exact absurd hi (Nat.not_lt_zero i)
  | cons seg rest ih =>
    intro W
    obtain ⟨iH1, iH2, iH3, iH4, iH5⟩ := ih (W - (simulate_step ac seg W S).1.2.1)
    rw [simulate_mission_go_cons]
    refine ⟨?_, ?_, ?_, ?_, ?_⟩
    · simpa using iH1
    · simp only [List.map_cons, List.sum_cons,
        (store_results_fields ac seg W S).1, iH2]
      ring
    · simp only [List.map_cons, List.sum_cons,
        (store_results_fields ac seg W S).2.1, iH3]
      ring
    · simp only [List.map_cons, List.sum_cons,
        (store_results_fields ac seg W S).2.2, iH4]
      ring
    · intro i hi hi'
      match i with
      | 0 => simp
      | (n + 1) =>
        simp only [List.get_cons_succ, List.take_succ_cons, List.map_cons,
          List.sum_cons, (store_results_fields ac seg W S).1]
        rw [iH5 n (Nat.lt_of_succ_lt_succ hi) (by simpa using Nat.lt_of_succ_lt_succ hi')]
        rw [sub_sub]

/-- `simulate_mission` is the mission loop plus repackaging of its
accumulators into the result record. -/
theorem simulate_mission_def (ac : Aircraft) (segs : List MissionSegment) (T S : ℚ) :
    simulate_mission ac segs T S =
      { total_fuel_lb := (simulate_mission_go ac S segs T).2.1
        total_battery_Wh := (simulate_mission_go ac S segs T).2.2.1
        total_time_sec := (simulate_mission_go ac S segs T).2.2.2
        segments := (simulate_mission_go ac S segs T).1 } :=
  rfl

/-- Claim C5: `simulate_mission` processes the segments strictly in list
order; the weight passed to each segment's simulation is TOGW minus the fuel
burned by all earlier segments (battery draw never decrements it), so the
per-segment weights are monotonically non-increasing whenever all fuel burns
are non-negative; and the returned totals equal the sums of the per-segment
fuel, battery energy, and time stored on the returned segments. -/
theorem simulate_mission_correct (ac : Aircraft) (segs : List MissionSegment)
    (TOGW_lb S_wing_ft2 : ℚ) :
    ∀ r, r = simulate_mission ac segs TOGW_lb S_wing_ft2 →
      r.segments.length = segs.length ∧
      r.total_fuel_lb = (r.segments.map MissionSegment.fuel_lb).sum ∧
      r.total_battery_Wh = (r.segments.map MissionSegment.battery_Wh).sum ∧
      r.total_time_sec = (r.segments.map MissionSegment.time_sec).sum ∧
      (∀ i (hi : i < segs.length) (hi' : i < r.segments.length),
        r.segments.get ⟨i, hi'⟩
          = store_results ac (segs.get ⟨i, hi⟩)
              (TOGW_lb - ((r.segments.take i).map MissionSegment.fuel_lb).sum)
              S_wing_ft2) ∧
      ((∀ seg ∈ r.segments, 0 ≤ seg.fuel_lb) → ∀ i j, i ≤ j →
        TOGW_lb - ((r.segments.take j).map MissionSegment.fuel_lb).sum
          ≤ TOGW_lb - ((r.segments.take i).map MissionSegment.fuel_lb).sum) := by
  rintro r rfl
  rw [simulate_mission_def]
  dsimp only
  obtain ⟨h1, h2, h3, h4, h5⟩ :=
    simulate_mission_go_spec ac S_wing_ft2 segs TOGW_lb
  refine ⟨h1, h2, h3, h4, h5, ?_⟩
  intro hpos i j hij
  rw [List.map_take, List.map_take]
  refine sub_le_sub_left (take_sum_le_take_sum _ ?_ hij) TOGW_lb
  intro x hx
  obtain ⟨s, hs, rfl⟩ := List.mem_map.1 hx
  exact hpos s hs

/-- Concrete instance of the mission-simulation theorem: a two-segment
mission (takeoff then descent) from 100 lb with wing area 10 ft². -/
theorem simulate_mission_correct_witness :
    (simulate_mission ac1 [segT, segD] 100 10).total_fuel_lb
      = ((simulate_mission ac1 [segT, segD] 100 10).segments.map
          MissionSegment.fuel_lb).sum ∧
    100 - (((simulate_mission ac1 [segT, segD] 100 10).segments.take 1).map
          MissionSegment.fuel_lb).sum
      ≤ 100 - (((simulate_mission ac1 [segT, segD] 100 10).segments.take 0).map
          MissionSegment.fuel_lb).sum := by
  have h := simulate_mission_correct ac1 [segT, segD] 100 10 _ rfl
  refine ⟨h.2.1, h.2.2.2.2.2 ?_ 0 1 (by norm_num)⟩
  intro s hs
  simp [simulate_mission, simulate_mission_go, simulate_step, store_results,
    simulate_simple_segment, simulate_descent_segment, segT, segD] at hs
  rcases hs with rfl | rfl <;> norm_num
